import Mathlib

/-
  Verification of the stored-record layer of `module/config/stored/classes.py`.

  The embedding mirrors the Python source: a `Datetime` at second/microsecond
  resolution, a tagged `PyVal` value type with Python's `isinstance` semantics,
  association lists with Python-dict insertion order for snapshots and schemas,
  and explicit state threading for the record / config objects.  Fallible
  Python code is embedded in `Except PyError`.
-/

/-- A `datetime.datetime` instant: epoch seconds plus a microsecond component
(`datetime.now().replace(microsecond=0)` clears `micro`). -/
structure Datetime where
  seconds : Int
  micro : Nat
deriving DecidableEq, Repr

/-- Runtime values that can appear in the persisted tree / snapshots. -/
inductive PyVal where
  | vint (n : Int)
  | vbool (b : Bool)
  | vstr (s : String)
  | vtime (t : Datetime)
  | vnone
deriving DecidableEq, Repr

/-- Python runtime type tags for the values above. -/
inductive PyType where
  | int | bool | str | datetime | nonetype
deriving DecidableEq, Repr

/-- Python `type(v)` for the embedded values. -/
def pytype : PyVal → PyType
  | .vint _ => .int
  | .vbool _ => .bool
  | .vstr _ => .str
  | .vtime _ => .datetime
  | .vnone => .nonetype

/-- Python `isinstance(v, ty)`; note `bool` is a subclass of `int`. -/
def isinstance (v : PyVal) (ty : PyType) : Bool :=
  match v, ty with
  | .vint _, .int => true
  | .vbool _, .bool => true
  | .vbool _, .int => true
  | .vstr _, .str => true
  | .vtime _, .datetime => true
  | .vnone, .nonetype => true
  | _, _ => false

/-- Python truthiness (`if not name`). -/
def pytruthy : PyVal → Bool
  | .vint n => n != 0
  | .vbool b => b
  | .vstr s => s != ""
  | .vtime _ => true
  | .vnone => false

/-- Exceptions the embedded code can raise.  `assertionError` models the
`assert self._config is not None` precondition failure (the spec's
`PreconditionError`); `typeError` models an uncaught `TypeError`;
`attributeError` models attribute access on `None`. -/
inductive PyError where
  | assertionError | typeError | attributeError
deriving DecidableEq, Repr

/-- Association-list lookup (`dict.get`, returning `none` when absent). -/
def dlookup : List (String × α) → String → Option α
  | [], _ => none
  | (a, b) :: rest, k => if a = k then some b else dlookup rest k

/-- Python-dict assignment `d[k] = v`: updates in place preserving insertion
order, appends at the end when the key is new. -/
def dictInsert : List (String × α) → String → α → List (String × α)
  | [], k, v => [(k, v)]
  | (a, b) :: rest, k, v =>
    if a = k then (k, v) :: rest else (a, b) :: dictInsert rest k v

/-- Modelled from the spec: `DEFAULT_TIME` (from `module.config.utils`, not in
src/), the fixed sentinel "never" instant used as the schema default for
`time`.  Its concrete value (2020-01-01 00:00:00) is opaque to this layer. -/
def DEFAULT_TIME : Datetime := ⟨1577836800, 0⟩

/-- Function `now() = datetime.now().replace(microsecond=0)`; `clock` is the ambient
`datetime.now()` reading. -/
def pynow (clock : Datetime) : Datetime := ⟨clock.seconds, 0⟩

/-- Method `StoredBase.readable_time`, as a function of the stored `time` attribute's
`timestamp()` and the wall clock `time.time()`, both in whole seconds (stored
times carry no sub-second component).  The divisors 86400 (HoursAgo) and
129600 (DaysAgo) are the source's, preserved verbatim. -/
def readable_time (storedTime clock : Int) : String × String :=
  let diff := storedTime - clock
  if diff < -1 then
    ("", "TimeError")
  else if diff < 60 then
    ("", "JustNow")
  else if diff < 3600 then
    (toString (Int.fdiv diff 60), "MinutesAgo")
  else if diff < 86400 then
    (toString (Int.fdiv diff 86400), "HoursAgo")
  else if diff < 129600 then
    (toString (Int.fdiv diff 129600), "DaysAgo")
  else
    ("", "LongTimeAgo")

/-- The spec's §4.2 threshold table for `readableTime()`, transcribed from the
spec's words: a (magnitude, bucket) pair chosen by conditions on
`elapsed = storedTime − now` in seconds. -/
def spec_readable_time (elapsed : Int) : String × String :=
  if elapsed < -1 then
    ("", "TimeError")
  else if -1 ≤ elapsed ∧ elapsed < 60 then
    ("", "JustNow")
  else if 60 ≤ elapsed ∧ elapsed < 3600 then
    (toString (Int.fdiv elapsed 60), "MinutesAgo")
  else if 3600 ≤ elapsed ∧ elapsed < 86400 then
    (toString (Int.fdiv elapsed 86400), "HoursAgo")
  else if 86400 ≤ elapsed ∧ elapsed < 129600 then
    (toString (Int.fdiv elapsed 129600), "DaysAgo")
  else
    ("", "LongTimeAgo")

/-- The external config collaborator (`AzurLaneConfig`), restricted to the
contract this core consumes: the nested data tree (keyed by the record's
dotted key, already resolved to the flat mapping `deep_get` would return),
the `modified` map of pending key → snapshot writes, the `auto_update` flag,
and a counter of `update()` flush calls. -/
structure AzurLaneConfig where
  data : List (String × List (String × PyVal))
  modified : List (String × List (String × PyVal))
  auto_update : Bool
  update_calls : Nat
deriving DecidableEq, Repr

/-- Modelled from the spec: `deep_get(config.data, keys=key, default={})`
(from `module.config.utils`, not in src/) — dotted-path lookup into the
nested tree returning the default (empty mapping) when absent. -/
def deep_get (data : List (String × List (String × PyVal))) (key : String) :
    List (String × PyVal) :=
  (dlookup data key).getD []

/-- One `StoredBase` instance: its dotted key (`_key`), the per-type schema
`_attrs` (attribute name → default, `time` first), the bound config
(`_config`, `none` before `_bind`), and the `functools.cached_property` cache
of `_stored` (`none` until first hydration).  The config is carried by value
and threaded through mutating operations. -/
structure StoredBase where
  key : String
  attrs : List (String × PyVal)
  config : Option AzurLaneConfig
  cache : Option (List (String × PyVal))
deriving DecidableEq, Repr

/-- Modelled from the spec: stdlib `datetime.fromisoformat` — parses a
timestamp string, raising `ValueError` (here: `none`) on a malformed string.
Abstracted as decimal epoch-second parsing; only the success/failure
structure matters to this layer. -/
def fromisoformat (s : String) : Option Datetime :=
  if s.data ≠ [] ∧ s.data.all Char.isDigit then
    some ⟨(s.data.foldl (fun acc c => acc * 10 + (c.toNat - 48)) 0 : Nat), 0⟩
  else
    none

/-- The per-attribute validation step of `StoredBase._stored`'s hydration
loop: `value` is the raw persisted value (or the default when absent).  For
`time`, a non-datetime value is passed to `datetime.fromisoformat`; only
`ValueError` is caught (falling back to the default with a warning), so a
value that is neither a `datetime` nor a `str` raises an uncaught
`TypeError`.  For other attributes, a value failing
`isinstance(value, type(default))` falls back to the default with a
warning. -/
def validate_attr (attr : String) (default value : PyVal) : Except PyError PyVal :=
  if attr = "time" then
    if isinstance value .datetime then
      .ok value
    else
      match value with
      | .vstr s =>
        match fromisoformat s with
        | some t => .ok (.vtime t)
        | none => .ok default
      | _ => .error .typeError
  else
    if isinstance value (pytype default) then .ok value else .ok default

/-- The hydration loop of `StoredBase._stored`: builds `out` over the schema
attributes in order, taking `stored.get(attr, default)` and validating. -/
def hydrate : (raw attrs : List (String × PyVal)) → Except PyError (List (String × PyVal))
  | _, [] => .ok []
  | raw, (attr, default) :: rest => do
    let value := (dlookup raw attr).getD default
    let v ← validate_attr attr default value
    let out ← hydrate raw rest
    .ok ((attr, v) :: out)

/-- Accessor `StoredBase._stored` (a `functools.cached_property`): on a cache hit the
cached snapshot is returned untouched; on a miss the `_config ≠ None`
precondition is asserted, the raw mapping is read via `deep_get`, hydrated
against the schema, and cached.  Returns the snapshot together with the
updated record. -/
def StoredBase.stored (r : StoredBase) :
    Except PyError (List (String × PyVal) × StoredBase) :=
  match r.cache with
  | some s => .ok (s, r)
  | none =>
    match r.config with
    | none => .error .assertionError
    | some cfg =>
      match hydrate (deep_get cfg.data r.key) r.attrs with
      | .ok s => .ok (s, { r with cache := some s })
      | .error e => .error e

/-- The type of a record's `_stored` accessor; `StoredBase.__getattribute__`
and `StoredBase.__setattr__` resolve `self._stored` through Python's dynamic
dispatch, so subclasses overriding `_stored` (StoredDailyActivity) pass their
own accessor here. -/
def StoredFn : Type :=
  StoredBase → Except PyError (List (String × PyVal) × StoredBase)

/-- Python `name.startswith('_')`: the first character is an underscore. -/
def startsWithUnderscore (s : String) : Bool :=
  match s.data with
  | [] => false
  | c :: _ => c = '_'

/-- Method `StoredBase.__getattribute__`: a public name in `_attrs` is served from
the hydrated snapshot; anything else falls through to ordinary attribute
access (signalled by `none`). -/
def StoredBase.getattribute (storedFn : StoredFn) (r : StoredBase) (item : String) :
    Except PyError (Option PyVal × StoredBase) :=
  if ¬ startsWithUnderscore item ∧ (dlookup r.attrs item).isSome then
    match storedFn r with
    | .ok (s, r1) => .ok (dlookup s item, r1)
    | .error e => .error e
  else
    .ok (none, r)

/-- Method `StoredBase.__setattr__` for a schema-declared key: fetch `_stored`,
stamp `stored['time'] = now()`, write the value, register the whole snapshot
under the record's key in `config.modified`, and call `config.update()` iff
`config.auto_update`.  Non-schema keys fall through to ordinary instance
attribute assignment (internal bookkeeping), leaving the modelled state
unchanged. -/
def StoredBase.pysetattr (storedFn : StoredFn) (r : StoredBase) (k : String)
    (v : PyVal) (clock : Datetime) : Except PyError StoredBase :=
  if (dlookup r.attrs k).isSome then
    match storedFn r with
    | .error e => .error e
    | .ok (s, r1) =>
      let s2 := dictInsert (dictInsert s "time" (.vtime (pynow clock))) k v
      match r1.config with
      | none => .error .attributeError
      | some cfg =>
        .ok { r1 with
              cache := some s2
              config := some { cfg with
                               modified := dictInsert cfg.modified r1.key s2
                               update_calls :=
                                 if cfg.auto_update then cfg.update_calls + 1
                                 else cfg.update_calls } }
  else
    .ok r

/-- Accessor `StoredDailyActivity._stored` (a plain `@property` overriding the base
cached property): fetches `super()._stored` — whose `functools` caching still
updates the instance `__dict__` — then pins `stored['total'] = 500` in the
(cached) dict before returning it. -/
def StoredDailyActivity.stored (r : StoredBase) :
    Except PyError (List (String × PyVal) × StoredBase) :=
  match StoredBase.stored r with
  | .error e => .error e
  | .ok (s, r1) =>
    .ok (dictInsert s "total" (.vint 500),
         { r1 with cache := some (dictInsert s "total" (.vint 500)) })

/-- Modelled from the spec: `config.multi_set()` scoped batching (a capability
of the external config collaborator, not in src/) — entering the scope
suspends the flush-on-every-set behavior, and exiting the outermost scope
triggers exactly one `update()` flush. -/
def multi_set (body : StoredBase → Except PyError StoredBase) (r : StoredBase) :
    Except PyError StoredBase :=
  match r.config with
  | none => .error .attributeError
  | some cfg =>
    match body { r with config := some { cfg with auto_update := false } } with
    | .error e => .error e
    | .ok r2 =>
      match r2.config with
      | none => .error .attributeError
      | some cfg2 =>
        .ok { r2 with config := some { cfg2 with
                auto_update := cfg.auto_update
                update_calls := cfg2.update_calls + 1 } }

/-- Method `StoredCounter.set(current, total)`: performs both attribute writes
inside one `multi_set()` batched transaction.  `storedFn` is the
dynamically-dispatched `_stored` accessor of the actual class. -/
def StoredCounter.set (storedFn : StoredFn) (r : StoredBase)
    (current total : Int) (clock : Datetime) : Except PyError StoredBase :=
  multi_set (fun r0 => do
    let r1 ← StoredBase.pysetattr storedFn r0 "current" (.vint current) clock
    StoredBase.pysetattr storedFn r1 "total" (.vint total) clock) r

/-- Method `StoredDailyActivity.set(current)` = `super().set(current=current,
total=500)`, dispatching `_stored` to the subclass override. -/
def StoredDailyActivity.set (r : StoredBase) (current : Int) (clock : Datetime) :
    Except PyError StoredBase :=
  StoredCounter.set StoredDailyActivity.stored r current 500 clock

/-- The schema of `StoredCounter` / `StoredDailyActivity`:
`{time, current, total}` with their class-level defaults. -/
def counterAttrs : List (String × PyVal) :=
  [("time", .vtime DEFAULT_TIME), ("current", .vint 0), ("total", .vint 0)]

/-- A resolved quest keyword object (`tasks.daily.keywords.DailyQuest`);
only its `name` matters to this layer. -/
structure DailyQuest where
  name : String
deriving DecidableEq, Repr

/-- An element of `write_quests`' input list: a resolved `DailyQuest` object
or a raw name string. -/
inductive QuestOrStr where
  | quest (q : DailyQuest)
  | raw (s : String)
deriving DecidableEq, Repr

/-- The normalization at the top of `write_quests`:
`q.name if isinstance(q, DailyQuest) else q`. -/
def questName : QuestOrStr → String
  | .quest q => q.name
  | .raw s => s

/-- Modelled from the spec: `DailyQuest.find(name)` (from
`tasks.daily.keywords`, not in src/) — the quest-name resolver; `none` models
the `ScriptError` raised when the name does not resolve, which `load_quests`
catches and drops.  A non-string slot value matches no keyword and also fails
to resolve. -/
def DailyQuest.findPy (find : String → Option DailyQuest) : PyVal → Option DailyQuest
  | .vstr s => find s
  | _ => none

/-- Read one quest slot through `__getattribute__`.  A fall-through to
ordinary attribute access cannot happen for a slot that is in the schema; it
would find the class-level default `''`, which is what the fall-through case
maps to. -/
def slotValue (r : StoredBase) (slot : String) : Except PyError (PyVal × StoredBase) :=
  match StoredBase.getattribute StoredBase.stored r slot with
  | .error e => .error e
  | .ok (o, r1) => .ok (o.getD (.vstr ""), r1)

/-- Method `StoredDaily.load_quests`: read `quest1..quest6` in slot order, skip the
falsy (empty) ones, resolve each name via `DailyQuest.find`, silently
dropping any `ScriptError`; return the resolved quests in slot order. -/
def StoredDaily.load_quests (find : String → Option DailyQuest) (r : StoredBase) :
    Except PyError (List DailyQuest × StoredBase) := do
  let (v1, r1) ← slotValue r "quest1"
  let (v2, r2) ← slotValue r1 "quest2"
  let (v3, r3) ← slotValue r2 "quest3"
  let (v4, r4) ← slotValue r3 "quest4"
  let (v5, r5) ← slotValue r4 "quest5"
  let (v6, r6) ← slotValue r5 "quest6"
  .ok (([v1, v2, v3, v4, v5, v6].filterMap (fun v =>
      if pytruthy v then DailyQuest.findPy find v else none)), r6)

/-- Method `StoredDaily.write_quests`: normalize every quest object to its name,
then inside one `multi_set()` transaction assign `quests[i]` to
`quest(i+1)`, clearing the slot to `''` on `IndexError` — i.e. slot `i`
receives `names.getD i ""`. -/
def StoredDaily.write_quests (r : StoredBase) (quests : List QuestOrStr)
    (clock : Datetime) : Except PyError StoredBase :=
  let names := quests.map questName
  multi_set (fun r0 => do
    let r1 ← StoredBase.pysetattr StoredBase.stored r0 "quest1"
      (.vstr (names.getD 0 "")) clock
    let r2 ← StoredBase.pysetattr StoredBase.stored r1 "quest2"
      (.vstr (names.getD 1 "")) clock
    let r3 ← StoredBase.pysetattr StoredBase.stored r2 "quest3"
      (.vstr (names.getD 2 "")) clock
    let r4 ← StoredBase.pysetattr StoredBase.stored r3 "quest4"
      (.vstr (names.getD 3 "")) clock
    let r5 ← StoredBase.pysetattr StoredBase.stored r4 "quest5"
      (.vstr (names.getD 4 "")) clock
    StoredBase.pysetattr StoredBase.stored r5 "quest6"
      (.vstr (names.getD 5 "")) clock) r

/-- The schema of `StoredDaily`: `{time, quest1..quest6}`. -/
def dailyAttrs : List (String × PyVal) :=
  [("time", .vtime DEFAULT_TIME), ("quest1", .vstr ""), ("quest2", .vstr ""),
   ("quest3", .vstr ""), ("quest4", .vstr ""), ("quest5", .vstr ""),
   ("quest6", .vstr "")]

/-- The kind of a class member as `iter_attribute` sees it:
`type(value).__name__` is 'function' for methods, 'property' for computed
properties (`StoredDailyActivity._stored`), 'cached_property' for the cached
helpers (`_name`, base `_stored`); anything else is a stored default value. -/
inductive Member where
  | mfunc | mprop | mcachedprop | mval (v : PyVal)
deriving DecidableEq, Repr

/-- The value `getattr(cls, attr)` contributes when yielded.  Descriptor
objects (the non-skipped, non-value case) only occur under leading-underscore
names and are never yielded; they are opaque here. -/
def memberVal : Member → PyVal
  | .mval v => v
  | _ => .vnone

/-- Function `iter_attribute(cls)`: walk `dir(cls)` (the sorted member list, inherited
members included), skipping leading-underscore names and members whose type
name is in `['function', 'property']`, yielding `(attr, getattr(cls, attr))`
for the rest. -/
def iter_attribute (members : List (String × Member)) : List (String × PyVal) :=
  members.filterMap (fun m =>
    if startsWithUnderscore m.1 then none
    else
      match m.2 with
      | .mfunc => none
      | .mprop => none
      | _ => some (m.1, memberVal m.2))

/-- Schema `StoredBase._attrs`: a dict seeded with `time → DEFAULT_TIME` ("time is
the first one"), then updated with every attribute `iter_attribute` yields; a
Python dict update keeps `time` in first position when it is re-yielded. -/
def stored_attrs (members : List (String × Member)) : List (String × PyVal) :=
  (iter_attribute members).foldl (fun acc m => dictInsert acc m.1 m.2)
    [("time", .vtime DEFAULT_TIME)]

/-- Members `dir(StoredBase)`, restricted to the names declared in the analyzed
module (every inherited `object` dunder starts with an underscore and is
skipped exactly like the representative `__init__` kept here). -/
def storedBase_members : List (String × Member) :=
  [("__init__", .mfunc), ("_bind", .mfunc), ("_name", .mcachedprop),
   ("_stored", .mcachedprop), ("dashboard", .mfunc), ("is_expired", .mfunc),
   ("readable_time", .mfunc), ("show", .mfunc),
   ("time", .mval (.vtime DEFAULT_TIME))]

/-- Members `dir(StoredExpiredAt0400)`: `StoredBase` with `is_expired` overridden
(still a function). -/
def storedExpiredAt0400_members : List (String × Member) :=
  storedBase_members

/-- Members `dir(StoredInt)`: adds the class default `value = 0`. -/
def storedInt_members : List (String × Member) :=
  [("__init__", .mfunc), ("_bind", .mfunc), ("_name", .mcachedprop),
   ("_stored", .mcachedprop), ("dashboard", .mfunc), ("is_expired", .mfunc),
   ("readable_time", .mfunc), ("show", .mfunc),
   ("time", .mval (.vtime DEFAULT_TIME)), ("value", .mval (.vint 0))]

/-- Members `dir(StoredCounter)`: adds `current = 0`, `total = 0` and the methods
`get_remain`, `is_full`, `set`, `to_counter`. -/
def storedCounter_members : List (String × Member) :=
  [("__init__", .mfunc), ("_bind", .mfunc), ("_name", .mcachedprop),
   ("_stored", .mcachedprop), ("current", .mval (.vint 0)),
   ("dashboard", .mfunc), ("get_remain", .mfunc), ("is_expired", .mfunc),
   ("is_full", .mfunc), ("readable_time", .mfunc), ("set", .mfunc),
   ("show", .mfunc), ("time", .mval (.vtime DEFAULT_TIME)),
   ("to_counter", .mfunc), ("total", .mval (.vint 0))]

/-- Members `dir(StoredDailyActivity)`: `StoredCounter` + `StoredExpiredAt0400`, with
`_stored` now a plain property and `set` overridden. -/
def storedDailyActivity_members : List (String × Member) :=
  [("__init__", .mfunc), ("_bind", .mfunc), ("_name", .mcachedprop),
   ("_stored", .mprop), ("current", .mval (.vint 0)),
   ("dashboard", .mfunc), ("get_remain", .mfunc), ("is_expired", .mfunc),
   ("is_full", .mfunc), ("readable_time", .mfunc), ("set", .mfunc),
   ("show", .mfunc), ("time", .mval (.vtime DEFAULT_TIME)),
   ("to_counter", .mfunc), ("total", .mval (.vint 0))]

/-- Members `dir(StoredDaily)`: adds `quest1..quest6 = ''` and the methods
`load_quests`, `write_quests`. -/
def storedDaily_members : List (String × Member) :=
  [("__init__", .mfunc), ("_bind", .mfunc), ("_name", .mcachedprop),
   ("_stored", .mcachedprop), ("dashboard", .mfunc), ("is_expired", .mfunc),
   ("load_quests", .mfunc), ("quest1", .mval (.vstr "")),
   ("quest2", .mval (.vstr "")), ("quest3", .mval (.vstr "")),
   ("quest4", .mval (.vstr "")), ("quest5", .mval (.vstr "")),
   ("quest6", .mval (.vstr "")), ("readable_time", .mfunc),
   ("show", .mfunc), ("time", .mval (.vtime DEFAULT_TIME)),
   ("write_quests", .mfunc)]

/-- Members `dir(StoredDungeonDouble)`: adds `calyx = 0`, `relic = 0`. -/
def storedDungeonDouble_members : List (String × Member) :=
  [("__init__", .mfunc), ("_bind", .mfunc), ("_name", .mcachedprop),
   ("_stored", .mcachedprop), ("calyx", .mval (.vint 0)),
   ("dashboard", .mfunc), ("is_expired", .mfunc),
   ("readable_time", .mfunc), ("relic", .mval (.vint 0)),
   ("show", .mfunc), ("time", .mval (.vtime DEFAULT_TIME))]

/-- C1: for every stored time and clock reading, `readable_time` returns
exactly the (magnitude, bucket) pair of the spec's threshold table applied to
elapsed = storedTime − now, with the 86400 divisor for HoursAgo and the
129600 divisor for DaysAgo, agreeing at every boundary (−1, 60, 3600, 86400,
129600 included). -/
theorem readable_time_matches_spec (storedTime clock : Int) :
    readable_time storedTime clock = spec_readable_time (storedTime - clock) := by
  simp only [readable_time, spec_readable_time]
  split_ifs <;> first | rfl | omega

theorem dlookup_dictInsert_self (l : List (String × α)) (k : String) (v : α) :
    dlookup (dictInsert l k v) k = some v := by
  induction l with
  | nil => simp [dictInsert, dlookup]
  | cons hd tl ih =>
    obtain ⟨a, b⟩ := hd
    by_cases h : a = k <;> simp [dictInsert, dlookup, h, ih]

theorem dlookup_dictInsert_ne (l : List (String × α)) (k k' : String) (v : α)
    (h : k' ≠ k) : dlookup (dictInsert l k' v) k = dlookup l k := by
  induction l with
  | nil => simp [dictInsert, dlookup, h]
  | cons hd tl ih =>
    obtain ⟨a, b⟩ := hd
    by_cases ha : a = k' <;> simp [dictInsert, dlookup, ha, ih]
    · subst ha; simp [h]

theorem validate_attr_ne_assert (attr : String) (d v : PyVal) :
    validate_attr attr d v ≠ .error .assertionError := by
  unfold validate_attr
  split_ifs
  · simp
  · rcases v with n | b | s | t | _
    · simp
    · simp
    · rcases hfi : fromisoformat s with _ | t <;> simp [hfi]
    · simp
    · simp
  · simp
  · simp

theorem hydrate_ne_assert (raw attrs : List (String × PyVal)) :
    hydrate raw attrs ≠ .error .assertionError := by
  induction attrs with
  | nil => simp [hydrate]
  | cons hd tl ih =>
    obtain ⟨attr, default⟩ := hd
    simp only [hydrate, bind, Except.bind]
    rcases hv : validate_attr attr default ((dlookup raw attr).getD default) with e | v
    · have h1 := validate_attr_ne_assert attr default ((dlookup raw attr).getD default)
      rw [hv] at h1
      simp only [ne_eq, Except.error.injEq] at h1 ⊢
      exact h1
    · rcases hrest : hydrate raw tl with e' | out
      · rw [hrest] at ih
        simp only [ne_eq, Except.error.injEq] at ih ⊢
        exact ih
      · simp

theorem stored_preserves (r r1 : StoredBase) (s : List (String × PyVal))
    (h : StoredBase.stored r = .ok (s, r1)) :
    r1.key = r.key ∧ r1.attrs = r.attrs ∧ r1.config = r.config ∧
      r1.cache = some s := by
  unfold StoredBase.stored at h
  split at h
  next s0 hc =>
    simp only [Except.ok.injEq, Prod.mk.injEq] at h
    obtain ⟨h1, h2⟩ := h
    subst h2
    simp [hc, h1]
  next hc =>
    split at h
    next hcfg => simp at h
    next cfg hcfg =>
      split at h
      next s' hh =>
        simp only [Except.ok.injEq, Prod.mk.injEq] at h
        obtain ⟨h1, h2⟩ := h
        subst h1
        rw [← h2]
        simp [hcfg]
      next e hh => simp at h

theorem stored_ne_assert_of_bound (r : StoredBase) (cfg : AzurLaneConfig)
    (hb : r.config = some cfg) :
    StoredBase.stored r ≠ .error .assertionError := by
  unfold StoredBase.stored
  split
  next s0 hc => simp
  next hc =>
    split
    next hcfg => rw [hb] at hcfg; simp at hcfg
    next cfg2 hcfg =>
      split
      next s' hh => simp
      next e hh =>
        have h1 := hydrate_ne_assert (deep_get cfg2.data r.key) r.attrs
        rw [hh] at h1
        simp only [ne_eq, Except.error.injEq] at h1 ⊢
        exact h1

/-- C3: for every record and schema-declared attribute, reading
(`__getattribute__`) or writing (`__setattr__`) the attribute before
`_bind(config)` has been called (no config bound, hence no hydration cache)
fails with the precondition assertion, and once a config is bound such an
access never fails with that error (it may still fail otherwise, e.g. on
corrupt persisted data, but never with the precondition error). -/
theorem bind_precondition (r : StoredBase) (attr : String) (v : PyVal)
    (clock : Datetime) (hu : ¬ startsWithUnderscore attr)
    (ha : (dlookup r.attrs attr).isSome) :
    (r.config = none → r.cache = none →
      StoredBase.getattribute StoredBase.stored r attr = .error .assertionError ∧
      StoredBase.pysetattr StoredBase.stored r attr v clock = .error .assertionError) ∧
    (∀ cfg, r.config = some cfg →
      StoredBase.getattribute StoredBase.stored r attr ≠ .error .assertionError ∧
      StoredBase.pysetattr StoredBase.stored r attr v clock ≠ .error .assertionError) := by
  constructor
  · intro hcfg hcache
    have hstored : StoredBase.stored r = .error .assertionError := by
      unfold StoredBase.stored
      rw [hcache, hcfg]
    constructor
    · unfold StoredBase.getattribute
      rw [if_pos ⟨hu, ha⟩, hstored]
    · unfold StoredBase.pysetattr
      rw [if_pos ha, hstored]
  · intro cfg hcfg
    have hstored := stored_ne_assert_of_bound r cfg hcfg
    constructor
    · unfold StoredBase.getattribute
      rw [if_pos ⟨hu, ha⟩]
      split
      next s r1 hs => simp
      next e hs =>
        rw [hs] at hstored
        simp only [ne_eq, Except.error.injEq] at hstored ⊢
        exact hstored
    · unfold StoredBase.pysetattr
      rw [if_pos ha]
      split
      next e hs =>
        rw [hs] at hstored
        simp only [ne_eq, Except.error.injEq] at hstored ⊢
        exact hstored
      next s r1 hs =>
        have hr1 := (stored_preserves r r1 s hs).2.2.1
        rw [hr1, hcfg]
        simp

theorem pysetattr_eq (r r1 : StoredBase) (cfg : AzurLaneConfig)
    (s : List (String × PyVal)) (k : String) (v : PyVal) (clock : Datetime)
    (hs : StoredBase.stored r = .ok (s, r1)) (hb : r.config = some cfg)
    (ha : (dlookup r.attrs k).isSome) :
    StoredBase.pysetattr StoredBase.stored r k v clock =
      .ok { r1 with
            cache := some (dictInsert (dictInsert s "time" (.vtime (pynow clock))) k v)
            config := some { cfg with
                             modified := dictInsert cfg.modified r1.key
                               (dictInsert (dictInsert s "time" (.vtime (pynow clock))) k v)
                             update_calls :=
                               if cfg.auto_update then cfg.update_calls + 1
                               else cfg.update_calls } } := by
  have hc : r1.config = some cfg := by
    rw [(stored_preserves r r1 s hs).2.2.1, hb]
  unfold StoredBase.pysetattr
  rw [if_pos ha]
  simp only [hs, hc]

theorem getattribute_cached (r : StoredBase) (s : List (String × PyVal))
    (attr : String) (hc : r.cache = some s) (hu : ¬ startsWithUnderscore attr)
    (ha : (dlookup r.attrs attr).isSome) :
    StoredBase.getattribute StoredBase.stored r attr = .ok (dlookup s attr, r) := by
  unfold StoredBase.getattribute StoredBase.stored
  rw [if_pos ⟨hu, ha⟩, hc]

/-- C4: for every bound record (hydration succeeded, yielding snapshot `s`),
every schema-declared attribute and every value of the schema default's type,
`set(attr, v)` followed immediately by `get(attr)` returns `v`. -/
theorem set_get_roundtrip (r r1 : StoredBase) (cfg : AzurLaneConfig)
    (s : List (String × PyVal)) (attr : String) (d v : PyVal) (clock : Datetime)
    (hb : r.config = some cfg)
    (hs : StoredBase.stored r = .ok (s, r1))
    (ha : dlookup r.attrs attr = some d)
    (hu : ¬ startsWithUnderscore attr)
    (ht : isinstance v (pytype d)) :
    ∃ r2, StoredBase.pysetattr StoredBase.stored r attr v clock = .ok r2 ∧
      StoredBase.getattribute StoredBase.stored r2 attr = .ok (some v, r2) := by
  have hp := stored_preserves r r1 s hs
  have ha' : (dlookup r.attrs attr).isSome := by rw [ha]; rfl
  refine ⟨_, pysetattr_eq r r1 cfg s attr v clock hs hb ha', ?_⟩
  rw [getattribute_cached _
      (dictInsert (dictInsert s "time" (.vtime (pynow clock))) attr v) attr rfl hu ?_]
  · rw [dlookup_dictInsert_self]
  · show (dlookup r1.attrs attr).isSome
    rw [hp.2.1]
    exact ha'

/-- Witness for `set_get_roundtrip`: on a concrete hydrated `StoredInt`-shaped
record, setting `value` to 7 and reading it back yields 7. -/
theorem set_get_roundtrip_witness :
    ∃ r2, StoredBase.pysetattr StoredBase.stored
        ⟨"dungeon.c4", [("time", .vtime DEFAULT_TIME), ("value", .vint 0)],
          some ⟨[], [], true, 0⟩,
          some [("time", .vtime DEFAULT_TIME), ("value", .vint 0)]⟩
        "value" (.vint 7) ⟨100, 5⟩ = .ok r2 ∧
      StoredBase.getattribute StoredBase.stored r2 "value" = .ok (some (.vint 7), r2) :=
  set_get_roundtrip
    ⟨"dungeon.c4", [("time", .vtime DEFAULT_TIME), ("value", .vint 0)],
      some ⟨[], [], true, 0⟩,
      some [("time", .vtime DEFAULT_TIME), ("value", .vint 0)]⟩
    ⟨"dungeon.c4", [("time", .vtime DEFAULT_TIME), ("value", .vint 0)],
      some ⟨[], [], true, 0⟩,
      some [("time", .vtime DEFAULT_TIME), ("value", .vint 0)]⟩
    ⟨[], [], true, 0⟩ [("time", .vtime DEFAULT_TIME), ("value", .vint 0)]
    "value" (.vint 0) (.vint 7) ⟨100, 5⟩ rfl rfl (by decide) (by decide) (by decide)

/-- C5: every `set(attr, value)` on a bound (hydrated) record stamps
`snapshot['time']` with the current instant truncated to whole seconds (when
`attr ≠ 'time'`, the stamp is what remains at `'time'`), writes `value` into
`snapshot[attr]` (the new cache is the doubly-updated snapshot), registers the
entire updated snapshot as the pending value for the record's key in
`config.modified`, and performs an `update()` call iff `auto_update`. -/
theorem setattr_effects (r r1 : StoredBase) (cfg : AzurLaneConfig)
    (s : List (String × PyVal)) (attr : String) (v : PyVal) (clock : Datetime)
    (hb : r.config = some cfg)
    (hs : StoredBase.stored r = .ok (s, r1))
    (ha : (dlookup r.attrs attr).isSome) :
    ∃ r2 cfg2,
      StoredBase.pysetattr StoredBase.stored r attr v clock = .ok r2 ∧
      r2.cache = some (dictInsert (dictInsert s "time" (.vtime (pynow clock))) attr v) ∧
      dlookup (dictInsert (dictInsert s "time" (.vtime (pynow clock))) attr v) attr
        = some v ∧
      (attr ≠ "time" →
        dlookup (dictInsert (dictInsert s "time" (.vtime (pynow clock))) attr v) "time"
          = some (.vtime (pynow clock))) ∧
      (pynow clock).micro = 0 ∧
      r2.config = some cfg2 ∧
      cfg2.modified = dictInsert cfg.modified r.key
        (dictInsert (dictInsert s "time" (.vtime (pynow clock))) attr v) ∧
      cfg2.update_calls =
        (if cfg.auto_update then cfg.update_calls + 1 else cfg.update_calls) ∧
      cfg2.auto_update = cfg.auto_update := by
  have hp := stored_preserves r r1 s hs
  refine ⟨_, _, pysetattr_eq r r1 cfg s attr v clock hs hb ha, rfl,
    dlookup_dictInsert_self _ _ _, ?_, rfl, rfl, ?_, rfl, rfl⟩
  · intro hne
    rw [dlookup_dictInsert_ne _ _ _ _ hne, dlookup_dictInsert_self]
  · rw [hp.1]

/-- Witness for `setattr_effects`: a concrete set of `value := 9` on a
hydrated record with `auto_update = true` stamps the truncated time in the new
snapshot, registers the full snapshot in `modified` and performs exactly one
flush. -/
theorem setattr_effects_witness :
    ∃ r2 cfg2,
      StoredBase.pysetattr StoredBase.stored
        ⟨"dungeon.c5", [("time", PyVal.vtime DEFAULT_TIME), ("value", PyVal.vint 0)],
          some ⟨[], [], true, 0⟩,
          some [("time", PyVal.vtime DEFAULT_TIME), ("value", PyVal.vint 0)]⟩
        "value" (PyVal.vint 9) ⟨200, 77⟩ = .ok r2 ∧
      r2.cache = some [("time", PyVal.vtime ⟨200, 0⟩), ("value", PyVal.vint 9)] ∧
      r2.config = some cfg2 ∧
      cfg2.modified =
        [("dungeon.c5", [("time", PyVal.vtime ⟨200, 0⟩), ("value", PyVal.vint 9)])] ∧
      cfg2.update_calls = 1 := by
  obtain ⟨r2, cfg2, h1, h2, h3, h4, h5, h6, h7, h8, h9⟩ :=
    setattr_effects
      ⟨"dungeon.c5", [("time", PyVal.vtime DEFAULT_TIME), ("value", PyVal.vint 0)],
        some ⟨[], [], true, 0⟩,
        some [("time", PyVal.vtime DEFAULT_TIME), ("value", PyVal.vint 0)]⟩
      ⟨"dungeon.c5", [("time", PyVal.vtime DEFAULT_TIME), ("value", PyVal.vint 0)],
        some ⟨[], [], true, 0⟩,
        some [("time", PyVal.vtime DEFAULT_TIME), ("value", PyVal.vint 0)]⟩
      ⟨[], [], true, 0⟩ [("time", PyVal.vtime DEFAULT_TIME), ("value", PyVal.vint 0)]
      "value" (PyVal.vint 9) ⟨200, 77⟩ rfl rfl (by decide)
  exact ⟨r2, cfg2, h1, h2, h6, h7, h8⟩

/-- C9: on every set, the automatic `time` stamp is applied before the
attribute write, so after `set(attr, v)` the snapshot's `time` equals the
fresh stamp when `attr ≠ 'time'`, and equals the supplied value `v` when
`attr = 'time'` (the stamp is overwritten by the explicit write). -/
theorem setattr_time_stamp_order (r r1 : StoredBase) (cfg : AzurLaneConfig)
    (s : List (String × PyVal)) (attr : String) (v : PyVal) (clock : Datetime)
    (hb : r.config = some cfg)
    (hs : StoredBase.stored r = .ok (s, r1))
    (ha : (dlookup r.attrs attr).isSome) :
    ∃ s2, StoredBase.pysetattr StoredBase.stored r attr v clock
        = .ok { r1 with
                cache := some s2
                config := some { cfg with
                                 modified := dictInsert cfg.modified r1.key s2
                                 update_calls :=
                                   if cfg.auto_update then cfg.update_calls + 1
                                   else cfg.update_calls } } ∧
      (attr ≠ "time" → dlookup s2 "time" = some (.vtime (pynow clock))) ∧
      (attr = "time" → dlookup s2 "time" = some v) := by
  refine ⟨_, pysetattr_eq r r1 cfg s attr v clock hs hb ha, ?_, ?_⟩
  · intro hne
    rw [dlookup_dictInsert_ne _ _ _ _ hne, dlookup_dictInsert_self]
  · intro heq
    subst heq
    rw [dlookup_dictInsert_self]

/-- Witness for `setattr_time_stamp_order`: on a concrete hydrated record
with schema `{time, value}`, setting `time` itself leaves the supplied value
in the snapshot, overriding the automatic stamp. -/
theorem setattr_time_stamp_order_witness :
    ∃ s2, (∃ r2, StoredBase.pysetattr StoredBase.stored
        ⟨"dungeon.c9", [("time", PyVal.vtime DEFAULT_TIME), ("value", PyVal.vint 0)],
          some ⟨[], [], false, 3⟩,
          some [("time", PyVal.vtime DEFAULT_TIME), ("value", PyVal.vint 0)]⟩
        "time" (PyVal.vtime ⟨555, 0⟩) ⟨600, 42⟩ = .ok r2 ∧ r2.cache = some s2) ∧
      dlookup s2 "time" = some (PyVal.vtime ⟨555, 0⟩) := by
  obtain ⟨s2, h1, h2, h3⟩ :=
    setattr_time_stamp_order
      ⟨"dungeon.c9", [("time", PyVal.vtime DEFAULT_TIME), ("value", PyVal.vint 0)],
        some ⟨[], [], false, 3⟩,
        some [("time", PyVal.vtime DEFAULT_TIME), ("value", PyVal.vint 0)]⟩
      ⟨"dungeon.c9", [("time", PyVal.vtime DEFAULT_TIME), ("value", PyVal.vint 0)],
        some ⟨[], [], false, 3⟩,
        some [("time", PyVal.vtime DEFAULT_TIME), ("value", PyVal.vint 0)]⟩
      ⟨[], [], false, 3⟩ [("time", PyVal.vtime DEFAULT_TIME), ("value", PyVal.vint 0)]
      "time" (PyVal.vtime ⟨555, 0⟩) ⟨600, 42⟩ rfl rfl (by decide)
  exact ⟨s2, ⟨_, h1, rfl⟩, h3 rfl⟩

/-- Witness for `bind_precondition` at a concrete `StoredInt`-shaped record:
before binding, reading `value` fails with the precondition assertion; after
binding an empty config, it does not. -/
theorem bind_precondition_witness :
    (StoredBase.getattribute StoredBase.stored
        ⟨"dungeon.c3", [("time", .vtime DEFAULT_TIME), ("value", .vint 0)], none, none⟩
        "value" = .error .assertionError) ∧
    (StoredBase.getattribute StoredBase.stored
        ⟨"dungeon.c3", [("time", .vtime DEFAULT_TIME), ("value", .vint 0)],
          some ⟨[], [], false, 0⟩, none⟩
        "value" ≠ .error .assertionError) := by
  refine ⟨?_, ?_⟩
  · exact ((bind_precondition
      ⟨"dungeon.c3", [("time", .vtime DEFAULT_TIME), ("value", .vint 0)], none, none⟩
      "value" (.vint 7) ⟨0, 0⟩ (by decide) (by decide)).1 rfl rfl).1
  · exact ((bind_precondition
      ⟨"dungeon.c3", [("time", .vtime DEFAULT_TIME), ("value", .vint 0)],
        some ⟨[], [], false, 0⟩, none⟩
      "value" (.vint 7) ⟨0, 0⟩ (by decide) (by decide)).2 ⟨[], [], false, 0⟩ rfl).1

/-- C2 (evidence): hydration of the claim's failing input raises.  With the
persisted value `{'time': 3}` (an int) under the record's key, `_stored`
calls `datetime.fromisoformat(3)`, which raises `TypeError`; only
`ValueError` is caught, so hydration propagates the exception instead of
degrading to the default — contradicting the never-raises claim.  By
contrast, an unparseable *string* time and a wrong-typed ordinary attribute
both degrade to the schema defaults without raising, as claimed. -/
theorem hydration_raises_on_int_time :
    StoredBase.stored
      ⟨"dungeon.c2", [("time", PyVal.vtime DEFAULT_TIME), ("value", PyVal.vint 0)],
        some ⟨[("dungeon.c2", [("time", PyVal.vint 3)])], [], false, 0⟩, none⟩
      = .error .typeError ∧
    StoredBase.stored
      ⟨"dungeon.c2", [("time", PyVal.vtime DEFAULT_TIME), ("value", PyVal.vint 0)],
        some ⟨[("dungeon.c2",
                [("time", PyVal.vstr "garbage"), ("value", PyVal.vstr "x")])],
              [], false, 0⟩, none⟩
      = .ok ([("time", PyVal.vtime DEFAULT_TIME), ("value", PyVal.vint 0)],
             ⟨"dungeon.c2", [("time", PyVal.vtime DEFAULT_TIME), ("value", PyVal.vint 0)],
               some ⟨[("dungeon.c2",
                       [("time", PyVal.vstr "garbage"), ("value", PyVal.vstr "x")])],
                     [], false, 0⟩,
               some [("time", PyVal.vtime DEFAULT_TIME), ("value", PyVal.vint 0)]⟩) := by
  constructor
  · rfl
  · rfl

theorem stored_cached (r : StoredBase) (s : List (String × PyVal))
    (hc : r.cache = some s) : StoredBase.stored r = .ok (s, r) := by
  unfold StoredBase.stored
  rw [hc]

/-- C6: for every bound `StoredDailyActivity` record, every successful read
of the snapshot yields `total = 500` regardless of what hydration produced
for `total`; and `set(current)` writes `current` while forcing
`total = 500`. -/
theorem daily_activity_total_pinned (r : StoredBase) (cfg : AzurLaneConfig)
    (s0 : List (String × PyVal)) (current : Int) (clock : Datetime)
    (hb : r.config = some cfg) (hc : r.cache = some s0)
    (hattrs : r.attrs = counterAttrs) :
    (∀ s r1, StoredDailyActivity.stored r = .ok (s, r1) →
       dlookup s "total" = some (.vint 500)) ∧
    (∃ r2 s2, StoredDailyActivity.set r current clock = .ok r2 ∧
       r2.cache = some s2 ∧
       dlookup s2 "current" = some (.vint current) ∧
       dlookup s2 "total" = some (.vint 500)) := by
  constructor
  · intro s r1 h
    unfold StoredDailyActivity.stored at h
    split at h
    next e hsb => simp at h
    next s' r' hsb =>
      simp only [Except.ok.injEq, Prod.mk.injEq] at h
      obtain ⟨h1, h2⟩ := h
      rw [← h1, dlookup_dictInsert_self]
  · obtain ⟨key, attrs, config, cache⟩ := r
    dsimp only at hb hc hattrs
    subst hb hc hattrs
    refine ⟨_, _, rfl, rfl, ?_, ?_⟩
    · rw [dlookup_dictInsert_ne _ _ _ _ (by decide),
        dlookup_dictInsert_ne _ _ _ _ (by decide),
        dlookup_dictInsert_ne _ _ _ _ (by decide),
        dlookup_dictInsert_self]
    · rw [dlookup_dictInsert_self]

/-- Witness for `daily_activity_total_pinned`: on a concrete hydrated
`StoredDailyActivity` whose persisted `total` was 9999, reading the snapshot
yields 500, and `set(current := 123)` leaves `current = 123, total = 500`. -/
theorem daily_activity_total_pinned_witness :
    (∃ s r1, StoredDailyActivity.stored
        ⟨"dungeon.c6", counterAttrs, some ⟨[], [], true, 0⟩,
          some [("time", PyVal.vtime DEFAULT_TIME), ("current", PyVal.vint 1),
                ("total", PyVal.vint 9999)]⟩ = .ok (s, r1) ∧
      dlookup s "total" = some (PyVal.vint 500)) ∧
    (∃ r2 s2, StoredDailyActivity.set
        ⟨"dungeon.c6", counterAttrs, some ⟨[], [], true, 0⟩,
          some [("time", PyVal.vtime DEFAULT_TIME), ("current", PyVal.vint 1),
                ("total", PyVal.vint 9999)]⟩ 123 ⟨700, 8⟩ = .ok r2 ∧
       r2.cache = some s2 ∧
       dlookup s2 "current" = some (PyVal.vint 123) ∧
       dlookup s2 "total" = some (PyVal.vint 500)) := by
  obtain ⟨h1, h2⟩ := daily_activity_total_pinned
    ⟨"dungeon.c6", counterAttrs, some ⟨[], [], true, 0⟩,
      some [("time", PyVal.vtime DEFAULT_TIME), ("current", PyVal.vint 1),
            ("total", PyVal.vint 9999)]⟩
    ⟨[], [], true, 0⟩
    [("time", PyVal.vtime DEFAULT_TIME), ("current", PyVal.vint 1),
     ("total", PyVal.vint 9999)]
    123 ⟨700, 8⟩ rfl rfl rfl
  exact ⟨⟨_, _, rfl, h1 _ _ rfl⟩, h2⟩

theorem slotValue_cached (r : StoredBase) (s : List (String × PyVal)) (slot : String)
    (hc : r.cache = some s) (hu : ¬ startsWithUnderscore slot)
    (ha : (dlookup r.attrs slot).isSome) :
    slotValue r slot = .ok ((dlookup s slot).getD (.vstr ""), r) := by
  unfold slotValue
  rw [getattribute_cached r s slot hc hu ha]

theorem quest_filter_step (find : String → Option DailyQuest) (n : String) :
    (if pytruthy (.vstr n) then DailyQuest.findPy find (.vstr n) else none)
      = (if n = "" then none else find n) := by
  by_cases h : n = ""
  · subst h
    simp [pytruthy, DailyQuest.findPy]
  · simp [pytruthy, DailyQuest.findPy, h, bne_iff_ne]

theorem load_quests_eq (find : String → Option DailyQuest) (r : StoredBase)
    (s : List (String × PyVal)) (n1 n2 n3 n4 n5 n6 : String)
    (hc : r.cache = some s) (hattrs : r.attrs = dailyAttrs)
    (h1 : dlookup s "quest1" = some (.vstr n1))
    (h2 : dlookup s "quest2" = some (.vstr n2))
    (h3 : dlookup s "quest3" = some (.vstr n3))
    (h4 : dlookup s "quest4" = some (.vstr n4))
    (h5 : dlookup s "quest5" = some (.vstr n5))
    (h6 : dlookup s "quest6" = some (.vstr n6)) :
    StoredDaily.load_quests find r
      = .ok ([n1, n2, n3, n4, n5, n6].filterMap
          (fun n => if n = "" then none else find n), r) := by
  have ha : ∀ q, (dlookup dailyAttrs q).isSome → (dlookup r.attrs q).isSome := by
    intro q hq
    rw [hattrs]
    exact hq
  unfold StoredDaily.load_quests
  rw [slotValue_cached r s "quest1" hc (by decide) (ha _ (by decide)), h1]
  simp only [Option.getD_some, bind, Except.bind]
  rw [slotValue_cached r s "quest2" hc (by decide) (ha _ (by decide)), h2]
  simp only [Option.getD_some, bind, Except.bind]
  rw [slotValue_cached r s "quest3" hc (by decide) (ha _ (by decide)), h3]
  simp only [Option.getD_some, bind, Except.bind]
  rw [slotValue_cached r s "quest4" hc (by decide) (ha _ (by decide)), h4]
  simp only [Option.getD_some, bind, Except.bind]
  rw [slotValue_cached r s "quest5" hc (by decide) (ha _ (by decide)), h5]
  simp only [Option.getD_some, bind, Except.bind]
  rw [slotValue_cached r s "quest6" hc (by decide) (ha _ (by decide)), h6]
  simp only [Option.getD_some, bind, Except.bind]
  simp only [List.filterMap_cons, List.filterMap_nil, quest_filter_step]

theorem write_quests_slots (key : String) (cfg : AzurLaneConfig)
    (s0 : List (String × PyVal)) (quests : List QuestOrStr) (clock : Datetime) :
    ∃ r2 s2, StoredDaily.write_quests ⟨key, dailyAttrs, some cfg, some s0⟩
        quests clock = .ok r2 ∧
      r2.cache = some s2 ∧ r2.attrs = dailyAttrs ∧
      dlookup s2 "quest1" = some (.vstr ((quests.map questName).getD 0 "")) ∧
      dlookup s2 "quest2" = some (.vstr ((quests.map questName).getD 1 "")) ∧
      dlookup s2 "quest3" = some (.vstr ((quests.map questName).getD 2 "")) ∧
      dlookup s2 "quest4" = some (.vstr ((quests.map questName).getD 3 "")) ∧
      dlookup s2 "quest5" = some (.vstr ((quests.map questName).getD 4 "")) ∧
      dlookup s2 "quest6" = some (.vstr ((quests.map questName).getD 5 "")) := by
  refine ⟨_, _, rfl, rfl, rfl, ?_, ?_, ?_, ?_, ?_, ?_⟩
  · rw [dlookup_dictInsert_ne _ _ _ _ (by decide), dlookup_dictInsert_ne _ _ _ _ (by decide),
      dlookup_dictInsert_ne _ _ _ _ (by decide), dlookup_dictInsert_ne _ _ _ _ (by decide),
      dlookup_dictInsert_ne _ _ _ _ (by decide), dlookup_dictInsert_ne _ _ _ _ (by decide),
      dlookup_dictInsert_ne _ _ _ _ (by decide), dlookup_dictInsert_ne _ _ _ _ (by decide),
      dlookup_dictInsert_ne _ _ _ _ (by decide), dlookup_dictInsert_ne _ _ _ _ (by decide),
      dlookup_dictInsert_self]
  · rw [dlookup_dictInsert_ne _ _ _ _ (by decide), dlookup_dictInsert_ne _ _ _ _ (by decide),
      dlookup_dictInsert_ne _ _ _ _ (by decide), dlookup_dictInsert_ne _ _ _ _ (by decide),
      dlookup_dictInsert_ne _ _ _ _ (by decide), dlookup_dictInsert_ne _ _ _ _ (by decide),
      dlookup_dictInsert_ne _ _ _ _ (by decide), dlookup_dictInsert_ne _ _ _ _ (by decide),
      dlookup_dictInsert_self]
  · rw [dlookup_dictInsert_ne _ _ _ _ (by decide), dlookup_dictInsert_ne _ _ _ _ (by decide),
      dlookup_dictInsert_ne _ _ _ _ (by decide), dlookup_dictInsert_ne _ _ _ _ (by decide),
      dlookup_dictInsert_ne _ _ _ _ (by decide), dlookup_dictInsert_ne _ _ _ _ (by decide),
      dlookup_dictInsert_self]
  · rw [dlookup_dictInsert_ne _ _ _ _ (by decide), dlookup_dictInsert_ne _ _ _ _ (by decide),
      dlookup_dictInsert_ne _ _ _ _ (by decide), dlookup_dictInsert_ne _ _ _ _ (by decide),
      dlookup_dictInsert_self]
  · rw [dlookup_dictInsert_ne _ _ _ _ (by decide), dlookup_dictInsert_ne _ _ _ _ (by decide),
      dlookup_dictInsert_self]
  · rw [dlookup_dictInsert_self]

/-- C7: for every bound `StoredDaily` record and input list of at most six
items, `write_quests` writes the items' names into `quest1..quest6` in input
order, clearing every slot beyond the list's length to `''` (slot `i` holds
`names.getD i ""`); a subsequent `load_quests` returns, in slot order,
exactly the resolved objects of the non-empty slots whose names resolve. -/
theorem write_then_load_quests (r : StoredBase) (cfg : AzurLaneConfig)
    (s0 : List (String × PyVal)) (find : String → Option DailyQuest)
    (quests : List QuestOrStr) (clock : Datetime)
    (hb : r.config = some cfg) (hc : r.cache = some s0)
    (hattrs : r.attrs = dailyAttrs) (hlen : quests.length ≤ 6) :
    ∃ r2 s2, StoredDaily.write_quests r quests clock = .ok r2 ∧
      r2.cache = some s2 ∧
      dlookup s2 "quest1" = some (.vstr ((quests.map questName).getD 0 "")) ∧
      dlookup s2 "quest2" = some (.vstr ((quests.map questName).getD 1 "")) ∧
      dlookup s2 "quest3" = some (.vstr ((quests.map questName).getD 2 "")) ∧
      dlookup s2 "quest4" = some (.vstr ((quests.map questName).getD 3 "")) ∧
      dlookup s2 "quest5" = some (.vstr ((quests.map questName).getD 4 "")) ∧
      dlookup s2 "quest6" = some (.vstr ((quests.map questName).getD 5 "")) ∧
      StoredDaily.load_quests find r2
        = .ok ([(quests.map questName).getD 0 "", (quests.map questName).getD 1 "",
                (quests.map questName).getD 2 "", (quests.map questName).getD 3 "",
                (quests.map questName).getD 4 "", (quests.map questName).getD 5 ""
               ].filterMap (fun n => if n = "" then none else find n), r2) := by
  obtain ⟨key, attrs, config, cache⟩ := r
  dsimp only at hb hc hattrs
  subst hb hc hattrs
  obtain ⟨r2, s2, hw, hcach, hattrs2, hq1, hq2, hq3, hq4, hq5, hq6⟩ :=
    write_quests_slots key cfg s0 quests clock
  exact ⟨r2, s2, hw, hcach, hq1, hq2, hq3, hq4, hq5, hq6,
    load_quests_eq find r2 s2 _ _ _ _ _ _ hcach hattrs2 hq1 hq2 hq3 hq4 hq5 hq6⟩

/-- Witness for `write_then_load_quests`: writing `[Quest_A (object),
"Quest_B" (raw name)]` into a concrete bound record and loading back, with a
resolver knowing both names, yields `[Quest_A, Quest_B]` in order. -/
theorem write_then_load_quests_witness :
    ∃ r2, (∃ s2, StoredDaily.write_quests
        ⟨"daily.quest", dailyAttrs, some ⟨[], [], true, 0⟩, some dailyAttrs⟩
        [.quest ⟨"Quest_A"⟩, .raw "Quest_B"] ⟨1000, 0⟩ = .ok r2 ∧
      r2.cache = some s2) ∧
      StoredDaily.load_quests
        (fun n => if n = "Quest_A" then some ⟨"Quest_A"⟩
          else if n = "Quest_B" then some ⟨"Quest_B"⟩ else none) r2
        = .ok ([⟨"Quest_A"⟩, ⟨"Quest_B"⟩], r2) := by
  obtain ⟨r2, s2, hw, hcach, _, _, _, _, _, _, hload⟩ :=
    write_then_load_quests
      ⟨"daily.quest", dailyAttrs, some ⟨[], [], true, 0⟩, some dailyAttrs⟩
      ⟨[], [], true, 0⟩ dailyAttrs
      (fun n => if n = "Quest_A" then some ⟨"Quest_A"⟩
        else if n = "Quest_B" then some ⟨"Quest_B"⟩ else none)
      [.quest ⟨"Quest_A"⟩, .raw "Quest_B"] ⟨1000, 0⟩
      rfl rfl rfl (by decide)
  exact ⟨r2, ⟨s2, hw, hcach⟩, hload⟩

/-- C10: for every bound `StoredDaily` record and every input list (quest
objects or raw strings, any length), `write_quests` normalizes each object
to its name, so after the call every slot `quest1..quest6` of the snapshot
holds a string — `names.getD i ""` — preserving the string-typed snapshot
invariant. -/
theorem write_quests_slots_are_strings (r : StoredBase) (cfg : AzurLaneConfig)
    (s0 : List (String × PyVal)) (quests : List QuestOrStr) (clock : Datetime)
    (hb : r.config = some cfg) (hc : r.cache = some s0)
    (hattrs : r.attrs = dailyAttrs) :
    ∃ r2 s2, StoredDaily.write_quests r quests clock = .ok r2 ∧
      r2.cache = some s2 ∧
      ∀ slot ∈ ["quest1", "quest2", "quest3", "quest4", "quest5", "quest6"],
        ∃ n : String, dlookup s2 slot = some (.vstr n) := by
  obtain ⟨key, attrs, config, cache⟩ := r
  dsimp only at hb hc hattrs
  subst hb hc hattrs
  obtain ⟨r2, s2, hw, hcach, _, hq1, hq2, hq3, hq4, hq5, hq6⟩ :=
    write_quests_slots key cfg s0 quests clock
  refine ⟨r2, s2, hw, hcach, ?_⟩
  intro slot hslot
  simp only [List.mem_cons, List.not_mem_nil, or_false] at hslot
  rcases hslot with h | h | h | h | h | h <;> subst h
  · exact ⟨_, hq1⟩
  · exact ⟨_, hq2⟩
  · exact ⟨_, hq3⟩
  · exact ⟨_, hq4⟩
  · exact ⟨_, hq5⟩
  · exact ⟨_, hq6⟩

/-- Witness for `write_quests_slots_are_strings`: an over-long input (seven
items, mixing objects and raw names) still leaves all six slots holding
strings. -/
theorem write_quests_slots_are_strings_witness :
    ∃ r2 s2, StoredDaily.write_quests
        ⟨"daily.quest", dailyAttrs, some ⟨[], [], false, 0⟩, some dailyAttrs⟩
        [.quest ⟨"A"⟩, .raw "B", .quest ⟨"C"⟩, .raw "D", .quest ⟨"E"⟩,
         .raw "F", .quest ⟨"G"⟩] ⟨2000, 1⟩ = .ok r2 ∧
      r2.cache = some s2 ∧
      ∀ slot ∈ ["quest1", "quest2", "quest3", "quest4", "quest5", "quest6"],
        ∃ n : String, dlookup s2 slot = some (.vstr n) :=
  write_quests_slots_are_strings
    ⟨"daily.quest", dailyAttrs, some ⟨[], [], false, 0⟩, some dailyAttrs⟩
    ⟨[], [], false, 0⟩ dailyAttrs
    [.quest ⟨"A"⟩, .raw "B", .quest ⟨"C"⟩, .raw "D", .quest ⟨"E"⟩,
     .raw "F", .quest ⟨"G"⟩] ⟨2000, 1⟩ rfl rfl rfl

theorem dictInsert_head_key (p : String × α) (t : List (String × α))
    (k : String) (v : α) :
    ∃ b' t', dictInsert (p :: t) k v = (p.1, b') :: t' := by
  obtain ⟨a, b⟩ := p
  by_cases h : a = k
  · subst h
    exact ⟨v, t, by simp [dictInsert]⟩
  · exact ⟨b, dictInsert t k v, by simp [dictInsert, h]⟩

theorem foldl_dictInsert_head_key (l : List (String × PyVal))
    (p : String × PyVal) (t : List (String × PyVal)) :
    ∃ b' t', l.foldl (fun acc m => dictInsert acc m.1 m.2) (p :: t)
      = (p.1, b') :: t' := by
  induction l generalizing p t with
  | nil => exact ⟨p.2, t, rfl⟩
  | cons hd tl ih =>
    obtain ⟨b1, t1, h1⟩ := dictInsert_head_key p t hd.1 hd.2
    obtain ⟨b2, t2, h2⟩ := ih (p.1, b1) t1
    refine ⟨b2, t2, ?_⟩
    rw [List.foldl_cons, h1]
    exact h2

/-- C8: the derived schema is a pure function of the record type (a plain
function of its member list): the first entry is always `time` (for every
member list), and for each record type of the module the derivation yields
exactly the expected ordered mapping — `time` first with the fixed
`DEFAULT_TIME` default, followed by exactly the public, non-method,
non-property members with their declared defaults. -/
theorem schema_derivation (ms : List (String × Member)) :
    ((stored_attrs ms).map Prod.fst).head? = some "time" ∧
    stored_attrs storedBase_members = [("time", .vtime DEFAULT_TIME)] ∧
    stored_attrs storedExpiredAt0400_members = [("time", .vtime DEFAULT_TIME)] ∧
    stored_attrs storedInt_members
      = [("time", .vtime DEFAULT_TIME), ("value", .vint 0)] ∧
    stored_attrs storedCounter_members = counterAttrs ∧
    stored_attrs storedDailyActivity_members = counterAttrs ∧
    stored_attrs storedDaily_members = dailyAttrs ∧
    stored_attrs storedDungeonDouble_members
      = [("time", .vtime DEFAULT_TIME), ("calyx", .vint 0), ("relic", .vint 0)] := by
  refine ⟨?_, rfl, rfl, rfl, rfl, rfl, rfl, rfl⟩
  unfold stored_attrs
  obtain ⟨b', t', h⟩ :=
    foldl_dictInsert_head_key (iter_attribute ms) ("time", .vtime DEFAULT_TIME) []
  rw [h]
  rfl
